import Mathlib

/-!
# hector_gps_calibration: a shallow embedding of `GPSCalibration`

The node state of `hector_gps_calibration.cpp` is embedded as a record, every
member function as a function from the state to the new state together with the
list of externally visible effects it performs (log lines, the call to the
least-squares solver, the debug file, the broadcast transform).

Conventions of the embedding:

* `double` is an arbitrary field `α`; `std::cos` and `std::sin` are passed in as
  functions `cos sin : α → α`.  The theorems about angles instantiate `α` with
  the real numbers and `cos`, `sin` with `Real.cos`, `Real.sin`.
* `ceres::Solve` belongs to an external library.  It is a parameter `Solve` that
  maps the solver options and the problem (residual blocks plus the current
  values of the parameter blocks) to the final parameter values and a summary.
* `tf_buffer.lookupTransform` belongs to tf2.  The buffer is a parameter mapping
  target frame, source frame and time stamp to a transform or to the text of the
  `tf2::TransformException`.
* `std::vector` is `List`; `operator[]` beyond the end is undefined behaviour and
  is embedded as `none`.  The loop counters (`int i`, `size_t i`) range over
  container sizes and are natural numbers; the containers are taken to hold fewer
  than 2^31 elements, so that no counter overflows.
-/

namespace HectorGps

/-! ## Data model -/

/-- The type `Eigen::Matrix<double, 2, 1>`. -/
structure Vec2 (α : Type) where
  x : α
  y : α
deriving DecidableEq

/-- The type `Eigen::Matrix<double, 3, 1>`, also `geometry_msgs::Vector3` and `Point`. -/
structure Vec3 (α : Type) where
  x : α
  y : α
  z : α
deriving DecidableEq

/-- The type `Eigen::Quaternion<double>`, also `geometry_msgs::Quaternion`;
the constructor takes the components in the order `w, x, y, z`. -/
structure Quaternion (α : Type) where
  w : α
  x : α
  y : α
  z : α
deriving DecidableEq

/-- The message `geometry_msgs::Transform`. -/
structure Transform (α : Type) where
  translation : Vec3 α
  rotation : Quaternion α
deriving DecidableEq

/-- The message `geometry_msgs::TransformStamped`. -/
structure TransformStamped (α : Type) where
  stamp : Nat
  frame_id : String
  child_frame_id : String
  transform : Transform α
deriving DecidableEq

/-- The fields of `nav_msgs::Odometry` that `navSatCallback` reads. -/
structure Odometry (α : Type) where
  frame_id : String
  stamp : Nat
  position : Vec3 α
deriving DecidableEq

/-- The enumeration `ceres::TerminationType`. -/
inductive TerminationType where
  | CONVERGENCE
  | NO_CONVERGENCE
  | FAILURE
  | USER_SUCCESS
  | USER_FAILURE
deriving DecidableEq

/-- The enumeration `ceres::LinearSolverType`. -/
inductive LinearSolverType where
  | DENSE_NORMAL_CHOLESKY
  | DENSE_QR
  | SPARSE_NORMAL_CHOLESKY
  | DENSE_SCHUR
  | SPARSE_SCHUR
  | ITERATIVE_SCHUR
  | CGNR
deriving DecidableEq

/-- The fields of `ceres::Solver::Options` that `optimize` sets. -/
structure SolverOptions where
  linear_solver_type : LinearSolverType
deriving DecidableEq

/-- One call of `problem.AddResidualBlock`: the cost functor
`TransformDeltaCostFunctor(world_poses_[i], gps_poses_[i])`, with its two
constructor arguments in order.  Every block is attached to the parameter blocks
`translation_.data()` and `&rotation_`. -/
structure ResidualBlock (α : Type) where
  world : Vec2 α
  gps : Vec2 α
deriving DecidableEq

/-- The parameterizations `optimize` can attach to a parameter block. -/
inductive LocalParameterization where
  | AngleLocalParameterization
deriving DecidableEq

/-- The `ceres::Problem` built by `optimize`, with the values its two parameter
blocks hold when `ceres::Solve` is entered. -/
structure Problem (α : Type) where
  blocks : List (ResidualBlock α)
  translation : Vec2 α
  rotation : α
  rotation_parameterization : Option LocalParameterization
deriving DecidableEq

/-- What `ceres::Solve` leaves behind: the final values of the two parameter
blocks (written in place) and the fields of `ceres::Solver::Summary` that are read. -/
structure Summary (α : Type) where
  translation : Vec2 α
  rotation : α
  termination_type : TerminationType
  FullReport : String
deriving DecidableEq

/-- The external function `ceres::Solve`. -/
abbrev Solver (α : Type) := SolverOptions → Problem α → Summary α

/-- The external object `tf2_ros::Buffer`, seen through `lookupTransform`
(target frame, source frame, time): the transform, or the exception text. -/
abbrev TfBuffer (α : Type) := String → String → Nat → Except String (TransformStamped α)

/-- The file `gps_alignment_solution.csv`: the header cells and the data rows. -/
structure CsvTable (α : Type) where
  header : List String
  rows : List (List α)
deriving DecidableEq

/-- The externally visible actions of the member functions. -/
inductive Effect (α : Type) where
  | ROS_WARN (text : String)
  | ROS_INFO_Translation (x y : α)
  | ROS_INFO_Rotation (r : α)
  | Solve (options : SolverOptions) (problem : Problem α)
  | writeFile (name : String) (table : CsvTable α)
  | sendTransform (tf : TransformStamped α)
deriving DecidableEq

/-- The data members of `class GPSCalibration`. -/
structure GPSCalibration (α : Type) where
  gps_poses_ : List (Vec2 α)
  world_poses_ : List (Vec2 α)
  translation_ : Vec2 α
  rotation_ : α
  write_debug_file_ : Bool
deriving DecidableEq

/-- The member functions a subscription or timer can be bound to. -/
inductive Callback where
  | navSatCallback
  | optimizeCallback
  | publishTF
deriving DecidableEq

/-- One call of `nh.subscribe(topic, queue_size, callback, this)`. -/
structure Subscription where
  topic : String
  queue_size : Nat
  callback : Callback
deriving DecidableEq

/-- What the constructor leaves behind: the object and its ROS wiring. -/
structure Node (α : Type) where
  state : GPSCalibration α
  nav_sat_sub_ : Subscription
  optimize_sub_ : Subscription
  wall_timer_callback : Callback
deriving DecidableEq

/-! ## Library code used by the member functions -/

section Operations

variable {α : Type}

/-- Componentwise sum of `Eigen::Matrix<double, 3, 1>`. -/
def Vec3.add [Field α] (a b : Vec3 α) : Vec3 α :=
  ⟨a.x + b.x, a.y + b.y, a.z + b.z⟩

/-- Product of a scalar and an `Eigen::Matrix<double, 3, 1>`. -/
def Vec3.smul [Field α] (c : α) (a : Vec3 α) : Vec3 α :=
  ⟨c * a.x, c * a.y, c * a.z⟩

/-- The cross product `a.cross(b)` of Eigen. -/
def Vec3.cross [Field α] (a b : Vec3 α) : Vec3 α :=
  ⟨a.y * b.z - a.z * b.y, a.z * b.x - a.x * b.z, a.x * b.y - a.y * b.x⟩

/-- The vector part `q.vec()` of a quaternion. -/
def Quaternion.vec (q : Quaternion α) : Vec3 α :=
  ⟨q.x, q.y, q.z⟩

/-- The product `q * v` of an Eigen quaternion with a vector, as Eigen computes
it: `uv = q.vec().cross(v); uv += uv; v + q.w() * uv + q.vec().cross(uv)`. -/
def Quaternion.transformVector [Field α] (q : Quaternion α) (v : Vec3 α) : Vec3 α :=
  let uv := q.vec.cross v
  let uv := uv.add uv
  (v.add (Vec3.smul q.w uv)).add (q.vec.cross uv)

/-- Modelled from the spec: the class template `Rigid3` is declared in a header
that is not among the sources.  It is the rigid transform made of a translation
and a rotation quaternion, in the order of the constructor call in `optimize`. -/
structure Rigid3 (α : Type) where
  translation : Vec3 α
  rotation : Quaternion α
deriving DecidableEq

/-- Modelled from the spec: `transform * point` for a `Rigid3`, which is declared
in a header that is not among the sources: the point is rotated by the quaternion
and the translation is added (the spec: the world point transformed through the
estimate, `R(θ)·w + t`). -/
def Rigid3.apply [Field α] (transform : Rigid3 α) (point : Vec3 α) : Vec3 α :=
  (transform.rotation.transformVector point).add transform.translation

/-- A counting loop `for (i = start; i < start + count; ++i)` whose body yields a
value or hits undefined behaviour; the values are collected in order. -/
def forLoop {β : Type} (body : Nat → Option β) : Nat → Nat → Option (List β)
  | _, 0 => some []
  | i, count + 1 =>
    match body i with
    | none => none
    | some b =>
      match forLoop body (i + 1) count with
      | none => none
      | some rest => some (b :: rest)

/-- The call `nh.param<T>(name, member, default)`: the value on the parameter
server when there is one, else the default. -/
def param {β : Type} (server : Option β) (default : β) : β :=
  match server with
  | some v => v
  | none => default

/-! ## The member functions of `GPSCalibration` -/

/-- The constructor `GPSCalibration::GPSCalibration`, given what the parameter
server holds for `translation_x`, `translation_y`, `orientation` and
`write_debug_file`. -/
def GPSCalibration.ctor [Field α] (translation_x translation_y orientation : Option α)
    (write_debug_file : Option Bool) : Node α :=
  { state :=
      { gps_poses_ := []
        world_poses_ := []
        translation_ := ⟨param translation_x 0, param translation_y 0⟩
        rotation_ := param orientation 0
        write_debug_file_ := param write_debug_file false }
    nav_sat_sub_ := ⟨"/odom_gps", 10, Callback.navSatCallback⟩
    optimize_sub_ := ⟨"gps/run_optimization", 10, Callback.navSatCallback⟩
    wall_timer_callback := Callback.publishTF }

/-- The body of the first loop of `optimize`: the residual block for index `i`. -/
def residualBlockAt (s : GPSCalibration α) (i : Nat) : Option (ResidualBlock α) :=
  match s.world_poses_[i]? with
  | none => none
  | some w =>
    match s.gps_poses_[i]? with
    | none => none
    | some g => some ⟨w, g⟩

/-- The body of the debug loop of `optimize`: the row written for index `i`. -/
def debugRowAt [Field α] (transform : Rigid3 α) (s : GPSCalibration α) (i : Nat) : Option (List α) :=
  match s.world_poses_[i]? with
  | none => none
  | some w =>
    let pos_world_gps := transform.apply ⟨w.x, w.y, 0⟩
    match s.gps_poses_[i]? with
    | none => none
    | some g => some [g.x, g.y, pos_world_gps.x, pos_world_gps.y]

/-- The member function `GPSCalibration::optimize`. -/
def optimize [Field α] (cos sin : α → α) (Solve : Solver α) (s : GPSCalibration α) :
    Option (GPSCalibration α × List (Effect α)) :=
  match forLoop (residualBlockAt s) 0 s.world_poses_.length with
  | none => none
  | some blocks =>
    let problem : Problem α :=
      { blocks := blocks
        translation := s.translation_
        rotation := s.rotation_
        rotation_parameterization := some LocalParameterization.AngleLocalParameterization }
    let options : SolverOptions := ⟨LinearSolverType.DENSE_QR⟩
    let summary := Solve options problem
    let s1 : GPSCalibration α :=
      { s with translation_ := summary.translation, rotation_ := summary.rotation }
    let log : List (Effect α) :=
      [Effect.Solve options problem]
        ++ (if summary.termination_type ≠ TerminationType.CONVERGENCE
            then [Effect.ROS_WARN summary.FullReport] else [])
        ++ [Effect.ROS_INFO_Translation s1.translation_.x s1.translation_.y,
            Effect.ROS_INFO_Rotation s1.rotation_]
    if s1.write_debug_file_ then
      let transform : Rigid3 α :=
        ⟨⟨s1.translation_.x, s1.translation_.y, 0⟩,
         ⟨cos (s1.rotation_ / 2), 0, 0, sin (s1.rotation_ / 2)⟩⟩
      match forLoop (debugRowAt transform s1) 0 s1.gps_poses_.length with
      | none => none
      | some rows =>
        some (s1, log ++ [Effect.writeFile "gps_alignment_solution.csv"
          ⟨["gps_x", "gps_y", "world_x", "world_y"], rows⟩])
    else
      some (s1, log)

/-- The member function `GPSCalibration::navSatCallback`. -/
def navSatCallback [Field α] (cos sin : α → α) (Solve : Solver α) (tf_buffer : TfBuffer α)
    (msg : Odometry α) (s : GPSCalibration α) :
    Option (GPSCalibration α × List (Effect α)) :=
  let warn : List (Effect α) :=
    if msg.frame_id ≠ "navsat_link"
    then [Effect.ROS_WARN ("Expecting odometry for navsat_link, received: " ++ msg.frame_id)]
    else []
  let pos_gps : Vec2 α := ⟨msg.position.x, msg.position.y⟩
  match tf_buffer "world" "navsat_link" msg.stamp with
  | Except.error what => some (s, warn ++ [Effect.ROS_WARN what])
  | Except.ok transformStamped =>
    let pos_world : Vec2 α :=
      ⟨transformStamped.transform.translation.x, transformStamped.transform.translation.y⟩
    let s1 : GPSCalibration α :=
      { s with gps_poses_ := s.gps_poses_ ++ [pos_gps],
               world_poses_ := s.world_poses_ ++ [pos_world] }
    if s1.world_poses_.length % 10 = 0 ∧ s1.world_poses_.length > 0 then
      match optimize cos sin Solve s1 with
      | none => none
      | some (s2, log) => some (s2, warn ++ log)
    else
      some (s1, warn)

/-- The member function `GPSCalibration::optimizeCallback`. -/
def optimizeCallback [Field α] (cos sin : α → α) (Solve : Solver α) (s : GPSCalibration α) :
    Option (GPSCalibration α × List (Effect α)) :=
  optimize cos sin Solve s

/-- The member function `GPSCalibration::publishTF`; `now` is `ros::Time::now()`. -/
def publishTF [Field α] (cos sin : α → α) (now : Nat) (s : GPSCalibration α) :
    GPSCalibration α × List (Effect α) :=
  let transformStamped : TransformStamped α :=
    { stamp := now
      frame_id := "utm"
      child_frame_id := "world"
      transform :=
        { translation := ⟨s.translation_.x, s.translation_.y, 0⟩
          rotation := ⟨cos (s.rotation_ / 2), 0, 0, sin (s.rotation_ / 2)⟩ } }
  (s, [Effect.sendTransform transformStamped])

/-- What ROS does when a message arrives on a subscription: it calls the member
function the subscription was bound to. -/
def Subscription.deliver [Field α] (sub : Subscription) (cos sin : α → α) (Solve : Solver α)
    (tf_buffer : TfBuffer α) (msg : Odometry α) (now : Nat) (s : GPSCalibration α) :
    Option (GPSCalibration α × List (Effect α)) :=
  match sub.callback with
  | Callback.navSatCallback => navSatCallback cos sin Solve tf_buffer msg s
  | Callback.optimizeCallback => optimizeCallback cos sin Solve s
  | Callback.publishTF => some (publishTF cos sin now s)

/-! ## Runs of the node -/

/-- One call of a member function from outside. -/
inductive Op (α : Type) where
  | navSatCallback (tf_buffer : TfBuffer α) (msg : Odometry α)
  | optimizeCallback
  | optimize
  | publishTF (now : Nat)

/-- The effect of one call on the state. -/
def step [Field α] (cos sin : α → α) (Solve : Solver α) (op : Op α) (s : GPSCalibration α) :
    Option (GPSCalibration α × List (Effect α)) :=
  match op with
  | Op.navSatCallback tf_buffer msg => navSatCallback cos sin Solve tf_buffer msg s
  | Op.optimizeCallback => optimizeCallback cos sin Solve s
  | Op.optimize => optimize cos sin Solve s
  | Op.publishTF now => some (publishTF cos sin now s)

/-- A sequence of calls, one after the other, with the effects in order. -/
def run [Field α] (cos sin : α → α) (Solve : Solver α) :
    List (Op α) → GPSCalibration α → Option (GPSCalibration α × List (Effect α))
  | [], s => some (s, [])
  | op :: ops, s =>
    match step cos sin Solve op s with
    | none => none
    | some (s1, log1) =>
      match run cos sin Solve ops s1 with
      | none => none
      | some (s2, log2) => some (s2, log1 ++ log2)

/-! ## Observations on effect lists -/

/-- The problems handed to the solver, in order. -/
def solves : List (Effect α) → List (Problem α)
  | [] => []
  | Effect.Solve _ problem :: rest => problem :: solves rest
  | _ :: rest => solves rest

/-- The debug tables written, in order. -/
def tables : List (Effect α) → List (String × CsvTable α)
  | [] => []
  | Effect.writeFile name table :: rest => (name, table) :: tables rest
  | _ :: rest => tables rest

/-- The log lines emitted through `ROS_WARN`, in order. -/
def warnings : List (Effect α) → List String
  | [] => []
  | Effect.ROS_WARN text :: rest => text :: warnings rest
  | _ :: rest => warnings rest

/-- The effects other than `ROS_WARN` lines, in order. -/
def withoutWarnings : List (Effect α) → List (Effect α)
  | [] => []
  | Effect.ROS_WARN _ :: rest => withoutWarnings rest
  | e :: rest => e :: withoutWarnings rest

/-- The store invariant: as many georeferenced points as world points. -/
def Paired (s : GPSCalibration α) : Prop :=
  s.gps_poses_.length = s.world_poses_.length

/-- The residual blocks of a paired store: the i-th world point with the i-th
georeferenced point. -/
def pairedBlocks (s : GPSCalibration α) : List (ResidualBlock α) :=
  List.zipWith ResidualBlock.mk s.world_poses_ s.gps_poses_

/-- The problem over the whole store, started from the estimate held in `s`. -/
def problemOf (s : GPSCalibration α) : Problem α :=
  { blocks := pairedBlocks s
    translation := s.translation_
    rotation := s.rotation_
    rotation_parameterization := some LocalParameterization.AngleLocalParameterization }

/-- The state with the estimate replaced by the solver's final parameter values. -/
def withEstimate (s : GPSCalibration α) (summary : Summary α) : GPSCalibration α :=
  { s with translation_ := summary.translation, rotation_ := summary.rotation }

/-- The rows of the debug table for a paired store under a rigid transform. -/
def debugRows [Field α] (transform : Rigid3 α) (s : GPSCalibration α) : List (List α) :=
  List.zipWith
    (fun w g => [g.x, g.y, (transform.apply ⟨w.x, w.y, 0⟩).x, (transform.apply ⟨w.x, w.y, 0⟩).y])
    s.world_poses_ s.gps_poses_

/-- The rigid transform `optimize` builds from the estimate held in `s`. -/
def estimateTransform [Field α] (cos sin : α → α) (s : GPSCalibration α) : Rigid3 α :=
  ⟨⟨s.translation_.x, s.translation_.y, 0⟩, ⟨cos (s.rotation_ / 2), 0, 0, sin (s.rotation_ / 2)⟩⟩

/-- The effects of `optimize` on a paired store, given the solver's summary. -/
def optimizeLog [Field α] (cos sin : α → α) (s : GPSCalibration α) (summary : Summary α) :
    List (Effect α) :=
  [Effect.Solve ⟨LinearSolverType.DENSE_QR⟩ (problemOf s)]
    ++ (if summary.termination_type ≠ TerminationType.CONVERGENCE
        then [Effect.ROS_WARN summary.FullReport] else [])
    ++ [Effect.ROS_INFO_Translation summary.translation.x summary.translation.y,
        Effect.ROS_INFO_Rotation summary.rotation]
    ++ (if s.write_debug_file_
        then [Effect.writeFile "gps_alignment_solution.csv"
          ⟨["gps_x", "gps_y", "world_x", "world_y"],
           debugRows (estimateTransform cos sin (withEstimate s summary)) s⟩]
        else [])

/-- The state after a successful lookup in `navSatCallback`, before the batch test. -/
def appended (s : GPSCalibration α) (msg : Odometry α) (tf : TransformStamped α) :
    GPSCalibration α :=
  { s with gps_poses_ := s.gps_poses_ ++ [⟨msg.position.x, msg.position.y⟩],
           world_poses_ := s.world_poses_ ++
             [⟨tf.transform.translation.x, tf.transform.translation.y⟩] }

/-- The warning `navSatCallback` emits for an unexpected frame id. -/
def frameWarning (msg : Odometry α) : List (Effect α) :=
  if msg.frame_id ≠ "navsat_link"
  then [Effect.ROS_WARN ("Expecting odometry for navsat_link, received: " ++ msg.frame_id)]
  else []

/-- The `lookupTransform` call that `navSatCallback` makes for the observation `o`
(a tf buffer and a message) succeeds. -/
def LookupSucceeds (o : TfBuffer α × Odometry α) : Prop :=
  ∃ tf, o.1 "world" "navsat_link" o.2.stamp = Except.ok tf

/-- The calls of `navSatCallback` for a list of observations, each with the
contents of the tf buffer at the time of the call. -/
def ingestions (obs : List (TfBuffer α × Odometry α)) : List (Op α) :=
  obs.map (fun o => Op.navSatCallback o.1 o.2)

/-! ## Concrete data for the worked examples -/

/-- A solver for the examples: it leaves the parameters where they start and
reports convergence. -/
def exampleSolve : Solver α :=
  fun _ problem => ⟨problem.translation, problem.rotation, TerminationType.CONVERGENCE, ""⟩

/-- A solver for the examples that moves the parameters and reports that it did
not converge. -/
def exampleStalledSolve [Field α] : Solver α :=
  fun _ problem => ⟨⟨problem.translation.x + 1, problem.translation.y⟩, problem.rotation + 1,
    TerminationType.NO_CONVERGENCE, "no convergence"⟩

/-- A solver for the examples that returns translation `(0.1, 0)` and rotation `0`. -/
def scenarioSolve [Field α] : Solver α :=
  fun _ _ => ⟨⟨1 / 10, 0⟩, 0, TerminationType.CONVERGENCE, ""⟩

/-- The concrete scenario: world points `(0,0), (0,1), (0,2), (0,3)` and
georeferenced points `(0.1,0), (0.1,1), (0.1,2), (0.1,3)`, with the default
starting estimate. -/
def scenario [Field α] (write_debug_file : Bool) : GPSCalibration α :=
  { gps_poses_ := [⟨1 / 10, 0⟩, ⟨1 / 10, 1⟩, ⟨1 / 10, 2⟩, ⟨1 / 10, 3⟩]
    world_poses_ := [⟨0, 0⟩, ⟨0, 1⟩, ⟨0, 2⟩, ⟨0, 3⟩]
    translation_ := ⟨0, 0⟩
    rotation_ := 0
    write_debug_file_ := write_debug_file }

/-- A tf buffer for the examples in which every lookup succeeds. -/
def exampleBuffer : TfBuffer ℚ :=
  fun _ _ stamp => Except.ok ⟨stamp, "world", "navsat_link", ⟨⟨1, 2, 0⟩, ⟨1, 0, 0, 0⟩⟩⟩

/-- A tf buffer for the examples in which every lookup times out. -/
def exampleFailingBuffer : TfBuffer ℚ :=
  fun _ _ _ => Except.error "lookup timed out"

/-- An odometry message for the examples. -/
def exampleMsg : Odometry ℚ :=
  ⟨"navsat_link", 0, ⟨3, 4, 0⟩⟩

/-- An odometry message with an unexpected frame id. -/
def exampleForeignMsg : Odometry ℚ :=
  ⟨"base_link", 7, ⟨3, 4, 0⟩⟩

/-- A store with `n` correspondences and the default estimate. -/
def exampleStore (n : Nat) : GPSCalibration ℚ :=
  { gps_poses_ := List.replicate n ⟨3, 4⟩
    world_poses_ := List.replicate n ⟨1, 2⟩
    translation_ := ⟨0, 0⟩
    rotation_ := 0
    write_debug_file_ := false }

/-! ## The residual model -/

end Operations

/-! ## Lemmas about the loops and the effect lists -/

section Lemmas

variable {α : Type}

theorem forLoop_eq_some {β : Type} (body : Nat → Option β) (l : List β) (i : Nat)
    (h : ∀ j (hj : j < l.length), body (i + j) = some l[j]) :
    forLoop body i l.length = some l := by
  induction l generalizing i with
  | nil => rfl
  | cons b rest ih =>
    have h0 : body i = some b := by simpa using h 0 (by simp)
    have hrest : forLoop body (i + 1) rest.length = some rest := by
      apply ih
      intro j hj
      have := h (j + 1) (by simpa using hj)
      simpa [Nat.add_assoc, Nat.add_comm 1 j] using this
    simp [forLoop, h0, hrest]

theorem forLoop_residualBlockAt (s : GPSCalibration α) (h : Paired s) :
    forLoop (residualBlockAt s) 0 s.world_poses_.length = some (pairedBlocks s) := by
  have hlen : (pairedBlocks s).length = s.world_poses_.length := by
    simp only [pairedBlocks, List.length_zipWith, Paired] at *
    omega
  rw [← hlen]
  apply forLoop_eq_some
  intro j hj
  simp only [pairedBlocks, List.length_zipWith, lt_min_iff] at hj
  simp [pairedBlocks, residualBlockAt, List.getElem?_eq_getElem hj.1,
    List.getElem?_eq_getElem hj.2]

theorem forLoop_debugRowAt [Field α] (transform : Rigid3 α) (s : GPSCalibration α)
    (h : Paired s) :
    forLoop (debugRowAt transform s) 0 s.gps_poses_.length = some (debugRows transform s) := by
  have hlen : (debugRows transform s).length = s.gps_poses_.length := by
    simp only [debugRows, List.length_zipWith, Paired] at *
    omega
  rw [← hlen]
  apply forLoop_eq_some
  intro j hj
  simp only [debugRows, List.length_zipWith, lt_min_iff] at hj
  simp [debugRows, debugRowAt, List.getElem?_eq_getElem hj.1, List.getElem?_eq_getElem hj.2]

theorem optimize_of_paired [Field α] (cos sin : α → α) (Solve : Solver α)
    (s : GPSCalibration α) (h : Paired s) :
    optimize cos sin Solve s
      = some (withEstimate s (Solve ⟨LinearSolverType.DENSE_QR⟩ (problemOf s)),
          optimizeLog cos sin s (Solve ⟨LinearSolverType.DENSE_QR⟩ (problemOf s))) := by
  have h1 := forLoop_residualBlockAt s h
  have h2 := forLoop_debugRowAt
    (estimateTransform cos sin (withEstimate s (Solve ⟨LinearSolverType.DENSE_QR⟩ (problemOf s))))
    (withEstimate s (Solve ⟨LinearSolverType.DENSE_QR⟩ (problemOf s))) h
  obtain ⟨gps, world, t, r, d⟩ := s
  cases d
  · simp [optimize, h1, optimizeLog, withEstimate, problemOf]
  · simp only [withEstimate, estimateTransform, problemOf] at h2
    simp [optimize, h1, h2, optimizeLog, withEstimate, problemOf, estimateTransform, debugRows]

theorem solves_append (a b : List (Effect α)) : solves (a ++ b) = solves a ++ solves b := by
  induction a with
  | nil => rfl
  | cons e rest ih => cases e <;> simp [solves, ih]

theorem tables_append (a b : List (Effect α)) : tables (a ++ b) = tables a ++ tables b := by
  induction a with
  | nil => rfl
  | cons e rest ih => cases e <;> simp [tables, ih]

theorem warnings_append (a b : List (Effect α)) :
    warnings (a ++ b) = warnings a ++ warnings b := by
  induction a with
  | nil => rfl
  | cons e rest ih => cases e <;> simp [warnings, ih]

theorem withoutWarnings_append (a b : List (Effect α)) :
    withoutWarnings (a ++ b) = withoutWarnings a ++ withoutWarnings b := by
  induction a with
  | nil => rfl
  | cons e rest ih => cases e <;> simp [withoutWarnings, ih]

theorem solves_optimizeLog [Field α] (cos sin : α → α) (s : GPSCalibration α)
    (summary : Summary α) : solves (optimizeLog cos sin s summary) = [problemOf s] := by
  unfold optimizeLog
  by_cases hc : summary.termination_type = TerminationType.CONVERGENCE <;>
    cases s.write_debug_file_ <;> simp [solves, hc]

theorem tables_optimizeLog [Field α] (cos sin : α → α) (s : GPSCalibration α)
    (summary : Summary α) :
    tables (optimizeLog cos sin s summary)
      = if s.write_debug_file_
        then [("gps_alignment_solution.csv",
          ⟨["gps_x", "gps_y", "world_x", "world_y"],
           debugRows (estimateTransform cos sin (withEstimate s summary)) s⟩)]
        else [] := by
  unfold optimizeLog
  by_cases hc : summary.termination_type = TerminationType.CONVERGENCE <;>
    cases s.write_debug_file_ <;> simp [tables, hc]

theorem warnings_optimizeLog [Field α] (cos sin : α → α) (s : GPSCalibration α)
    (summary : Summary α) :
    warnings (optimizeLog cos sin s summary)
      = if summary.termination_type = TerminationType.CONVERGENCE then []
        else [summary.FullReport] := by
  unfold optimizeLog
  by_cases hc : summary.termination_type = TerminationType.CONVERGENCE <;>
    cases s.write_debug_file_ <;> simp [warnings, hc]

theorem paired_withEstimate (s : GPSCalibration α) (summary : Summary α) (h : Paired s) :
    Paired (withEstimate s summary) := h

theorem paired_appended (s : GPSCalibration α) (msg : Odometry α) (tf : TransformStamped α)
    (h : Paired s) : Paired (appended s msg tf) := by
  simp only [Paired, appended, List.length_append, List.length_singleton] at *
  omega

theorem solves_frameWarning (msg : Odometry α) : solves (frameWarning msg) = [] := by
  unfold frameWarning
  split <;> simp [solves]

theorem navSatCallback_error [Field α] (cos sin : α → α) (Solve : Solver α)
    (tf_buffer : TfBuffer α) (msg : Odometry α) (s : GPSCalibration α) (what : String)
    (h : tf_buffer "world" "navsat_link" msg.stamp = Except.error what) :
    navSatCallback cos sin Solve tf_buffer msg s
      = some (s, frameWarning msg ++ [Effect.ROS_WARN what]) := by
  simp [navSatCallback, h, frameWarning]

theorem navSatCallback_ok [Field α] (cos sin : α → α) (Solve : Solver α)
    (tf_buffer : TfBuffer α) (msg : Odometry α) (s : GPSCalibration α)
    (tf : TransformStamped α)
    (h : tf_buffer "world" "navsat_link" msg.stamp = Except.ok tf) (hp : Paired s) :
    navSatCallback cos sin Solve tf_buffer msg s
      = if (s.world_poses_.length + 1) % 10 = 0 then
          some (withEstimate (appended s msg tf)
                  (Solve ⟨LinearSolverType.DENSE_QR⟩ (problemOf (appended s msg tf))),
                frameWarning msg ++ optimizeLog cos sin (appended s msg tf)
                  (Solve ⟨LinearSolverType.DENSE_QR⟩ (problemOf (appended s msg tf))))
        else some (appended s msg tf, frameWarning msg) := by
  have ho := optimize_of_paired cos sin Solve (appended s msg tf) (paired_appended s msg tf hp)
  simp only [appended] at ho
  by_cases hc : (s.world_poses_.length + 1) % 10 = 0
  · simp [navSatCallback, h, hc, ho, frameWarning, appended]
  · simp [navSatCallback, h, hc, frameWarning, appended]

theorem length_pairedBlocks (s : GPSCalibration α) (h : Paired s) :
    (pairedBlocks s).length = s.world_poses_.length := by
  simp only [pairedBlocks, List.length_zipWith, Paired] at *
  omega

theorem multiples_of_ten (m : Nat) :
    (List.range' 1 m).filter (fun c => decide (c % 10 = 0))
      = (List.range (m / 10)).map (fun k => 10 * (k + 1)) := by
  induction m with
  | zero => rfl
  | succ m ih =>
    rw [List.range'_1_concat, List.filter_append, ih]
    by_cases hc : (1 + m) % 10 = 0
    · have hd : (m + 1) / 10 = m / 10 + 1 := by omega
      have hv : 10 * (m / 10 + 1) = 1 + m := by omega
      simp [hc, hd, List.range_succ, hv]
    · have hd : (m + 1) / 10 = m / 10 := by omega
      simp [hc, hd]

theorem run_ingestions [Field α] (cos sin : α → α) (Solve : Solver α)
    (obs : List (TfBuffer α × Odometry α)) (s : GPSCalibration α) (hs : Paired s)
    (hobs : ∀ o ∈ obs, LookupSucceeds o) :
    ∃ s' fx, run cos sin Solve (ingestions obs) s = some (s', fx) ∧ Paired s' ∧
      s'.world_poses_.length = s.world_poses_.length + obs.length ∧
      (solves fx).map (fun p => p.blocks.length)
        = (List.range' (s.world_poses_.length + 1) obs.length).filter
            (fun c => decide (c % 10 = 0)) := by
  induction obs generalizing s with
  | nil => exact ⟨s, [], rfl, hs, rfl, rfl⟩
  | cons o rest ih =>
    obtain ⟨tf, htf⟩ := hobs o (List.mem_cons_self _ _)
    have hstep := navSatCallback_ok cos sin Solve o.1 o.2 s tf htf hs
    have hrest : ∀ o ∈ rest, LookupSucceeds o :=
      fun o ho => hobs o (List.mem_cons_of_mem _ ho)
    have hpa := paired_appended s o.2 tf hs
    have hla : (appended s o.2 tf).world_poses_.length = s.world_poses_.length + 1 := by
      simp [appended]
    by_cases hc : (s.world_poses_.length + 1) % 10 = 0
    · rw [if_pos hc] at hstep
      obtain ⟨s', fx, hrun, hp', hlen, hsol⟩ :=
        ih (withEstimate (appended s o.2 tf)
          (Solve ⟨LinearSolverType.DENSE_QR⟩ (problemOf (appended s o.2 tf))))
          (paired_withEstimate _ _ hpa) hrest
      refine ⟨s', (frameWarning o.2 ++ optimizeLog cos sin (appended s o.2 tf)
        (Solve ⟨LinearSolverType.DENSE_QR⟩ (problemOf (appended s o.2 tf)))) ++ fx,
        ?_, hp', ?_, ?_⟩
      · simp only [ingestions, List.map_cons, run, step] at hrun ⊢
        rw [hstep]
        simp only [hrun]
      · rw [hlen]
        simp only [withEstimate, hla, List.length_cons]
        omega
      · have hb : (problemOf (appended s o.2 tf)).blocks.length = s.world_poses_.length + 1 := by
          simp only [problemOf, length_pairedBlocks _ hpa, hla]
        have hw : (withEstimate (appended s o.2 tf) (Solve ⟨LinearSolverType.DENSE_QR⟩
            (problemOf (appended s o.2 tf)))).world_poses_.length = s.world_poses_.length + 1 := hla
        rw [hw] at hsol
        rw [solves_append, solves_append, solves_frameWarning, solves_optimizeLog]
        simp only [List.nil_append, List.map_append, List.map_cons, List.map_nil, hsol, hb,
          List.length_cons, List.range'_succ, List.singleton_append]
        rw [List.filter_cons_of_pos (by simpa using hc)]
    · rw [if_neg hc] at hstep
      obtain ⟨s', fx, hrun, hp', hlen, hsol⟩ := ih (appended s o.2 tf) hpa hrest
      refine ⟨s', frameWarning o.2 ++ fx, ?_, hp', ?_, ?_⟩
      · simp only [ingestions, List.map_cons, run, step] at hrun ⊢
        rw [hstep]
        simp only [hrun]
      · rw [hlen, hla, List.length_cons]
        omega
      · rw [hla] at hsol
        rw [solves_append, solves_frameWarning]
        simp only [List.nil_append, hsol, List.length_cons, List.range'_succ]
        rw [List.filter_cons_of_neg (by simpa using hc)]

theorem step_spec [Field α] (cos sin : α → α) (Solve : Solver α) (op : Op α)
    (s : GPSCalibration α) (hs : Paired s) :
    ∃ s' fx, step cos sin Solve op s = some (s', fx) ∧ Paired s' ∧
      s'.write_debug_file_ = s.write_debug_file_ ∧
      ∃ new_world new_gps, s'.world_poses_ = s.world_poses_ ++ new_world ∧
        s'.gps_poses_ = s.gps_poses_ ++ new_gps ∧ new_world.length = new_gps.length := by
  cases op with
  | navSatCallback tf_buffer msg =>
    cases hl : tf_buffer "world" "navsat_link" msg.stamp with
    | error what =>
      exact ⟨s, _, navSatCallback_error cos sin Solve tf_buffer msg s what hl, hs, rfl,
        [], [], by simp, by simp, rfl⟩
    | ok tf =>
      have hstep := navSatCallback_ok cos sin Solve tf_buffer msg s tf hl hs
      have hpa := paired_appended s msg tf hs
      by_cases hc : (s.world_poses_.length + 1) % 10 = 0
      · rw [if_pos hc] at hstep
        exact ⟨_, _, hstep, paired_withEstimate _ _ hpa, rfl, _, _, rfl, rfl, rfl⟩
      · rw [if_neg hc] at hstep
        exact ⟨_, _, hstep, hpa, rfl, _, _, rfl, rfl, rfl⟩
  | optimizeCallback =>
    exact ⟨_, _, optimize_of_paired cos sin Solve s hs, hs, rfl, [], [], by simp [withEstimate],
      by simp [withEstimate], rfl⟩
  | optimize =>
    exact ⟨_, _, optimize_of_paired cos sin Solve s hs, hs, rfl, [], [], by simp [withEstimate],
      by simp [withEstimate], rfl⟩
  | publishTF now =>
    exact ⟨s, _, rfl, hs, rfl, [], [], by simp, by simp, rfl⟩

theorem run_spec [Field α] (cos sin : α → α) (Solve : Solver α) (ops : List (Op α))
    (s : GPSCalibration α) (hs : Paired s) :
    ∃ s' fx, run cos sin Solve ops s = some (s', fx) ∧ Paired s' ∧
      s'.write_debug_file_ = s.write_debug_file_ ∧
      ∃ new_world new_gps, s'.world_poses_ = s.world_poses_ ++ new_world ∧
        s'.gps_poses_ = s.gps_poses_ ++ new_gps ∧ new_world.length = new_gps.length := by
  induction ops generalizing s with
  | nil => exact ⟨s, [], rfl, hs, rfl, [], [], by simp, by simp, rfl⟩
  | cons op rest ih =>
    obtain ⟨s1, fx1, h1, hp1, hd1, w1, g1, hw1, hg1, hl1⟩ := step_spec cos sin Solve op s hs
    obtain ⟨s2, fx2, h2, hp2, hd2, w2, g2, hw2, hg2, hl2⟩ := ih s1 hp1
    refine ⟨s2, fx1 ++ fx2, ?_, hp2, hd2.trans hd1, w1 ++ w2, g1 ++ g2, ?_, ?_, ?_⟩
    · simp only [run, h1, h2]
    · rw [hw2, hw1, List.append_assoc]
    · rw [hg2, hg1, List.append_assoc]
    · simp [hl1, hl2]

theorem withoutWarnings_optimizeLog [Field α] (cos sin : α → α) (s : GPSCalibration α)
    (summary : Summary α) :
    withoutWarnings (optimizeLog cos sin s summary)
      = optimizeLog cos sin s
          { summary with termination_type := TerminationType.CONVERGENCE } := by
  unfold optimizeLog
  by_cases hc : summary.termination_type = TerminationType.CONVERGENCE <;>
    cases s.write_debug_file_ <;> simp [withoutWarnings, hc, withEstimate]

/-! ## Lemmas over the real numbers -/

theorem estimateTransform_apply (t : Vec2 ℝ) (θ : ℝ) (w : Vec2 ℝ) :
    (Rigid3.apply
        ⟨⟨t.x, t.y, 0⟩, ⟨Real.cos (θ / 2), 0, 0, Real.sin (θ / 2)⟩⟩ ⟨w.x, w.y, 0⟩)
      = ⟨Real.cos θ * w.x - Real.sin θ * w.y + t.x,
         Real.sin θ * w.x + Real.cos θ * w.y + t.y, 0⟩ := by
  have hc : Real.cos θ = 2 * Real.cos (θ / 2) ^ 2 - 1 := by
    rw [← Real.cos_two_mul]; congr 1; ring
  have hs : Real.sin θ = 2 * Real.sin (θ / 2) * Real.cos (θ / 2) := by
    rw [← Real.sin_two_mul]; congr 1; ring
  have h1 := Real.sin_sq_add_cos_sq (θ / 2)
  simp only [Rigid3.apply, Quaternion.transformVector, Quaternion.vec, Vec3.cross, Vec3.add,
    Vec3.smul, Vec3.mk.injEq, hc, hs]
  refine ⟨?_, ?_, ?_⟩
  · linear_combination (-2 * w.x) * h1
  · linear_combination (-2 * w.y) * h1
  · ring

end Lemmas


/-! ## The claims -/

section Claims

variable {α : Type}

/-- Claim C1: on a paired store an ingestion whose world-frame lookup succeeds
appends one correspondence and runs the solve exactly once when the count after
the append is a positive multiple of 10, and not at all otherwise; a sequence of
successful ingestions from the empty store of the constructor runs the solve at
the counts 10, 20, 30, ... up to the number of ingestions, once each, in order. -/
theorem C1_solve_at_every_tenth_ingestion [Field α] (cos sin : α → α) (Solve : Solver α)
    (s : GPSCalibration α) (tf_buffer : TfBuffer α) (msg : Odometry α)
    (tf : TransformStamped α) (obs : List (TfBuffer α × Odometry α))
    (translation_x translation_y orientation : Option α) (write_debug_file : Option Bool)
    (hs : Paired s)
    (hok : tf_buffer "world" "navsat_link" msg.stamp = Except.ok tf)
    (hobs : ∀ o ∈ obs, LookupSucceeds o) :
    (∃ s' fx, navSatCallback cos sin Solve tf_buffer msg s = some (s', fx) ∧
      s'.world_poses_.length = s.world_poses_.length + 1 ∧
      (solves fx).length
        = if s'.world_poses_.length % 10 = 0 ∧ 0 < s'.world_poses_.length then 1 else 0) ∧
    (∃ s' fx,
      run cos sin Solve (ingestions obs)
        (GPSCalibration.ctor translation_x translation_y orientation write_debug_file).state
        = some (s', fx) ∧
      s'.world_poses_.length = obs.length ∧
      (solves fx).map (fun p => p.blocks.length)
        = (List.range (obs.length / 10)).map (fun k => 10 * (k + 1))) := by
  constructor
  · have hstep := navSatCallback_ok cos sin Solve tf_buffer msg s tf hok hs
    have hla : (appended s msg tf).world_poses_.length = s.world_poses_.length + 1 := by
      simp [appended]
    by_cases hc : (s.world_poses_.length + 1) % 10 = 0
    · rw [if_pos hc] at hstep
      refine ⟨_, _, hstep, hla, ?_⟩
      rw [solves_append, solves_frameWarning, solves_optimizeLog]
      simp [withEstimate, hla, hc]
    · rw [if_neg hc] at hstep
      refine ⟨_, _, hstep, hla, ?_⟩
      rw [solves_frameWarning, hla]
      simp [hc]
  · obtain ⟨s', fx, hrun, _, hlen, hsol⟩ := run_ingestions cos sin Solve obs
      (GPSCalibration.ctor translation_x translation_y orientation write_debug_file).state
      rfl hobs
    refine ⟨s', fx, hrun, ?_, ?_⟩
    · simpa [GPSCalibration.ctor] using hlen
    · rw [hsol]
      simpa [GPSCalibration.ctor] using multiples_of_ten obs.length

/-- Worked example for C1: a store of nine correspondences receives a tenth, and
twenty-five observations are ingested from the empty store. -/
theorem C1_solve_at_every_tenth_ingestion_witness :
    Paired (exampleStore 9) ∧
    exampleBuffer "world" "navsat_link" exampleMsg.stamp
      = Except.ok ⟨0, "world", "navsat_link", ⟨⟨1, 2, 0⟩, ⟨1, 0, 0, 0⟩⟩⟩ ∧
    (∀ o ∈ List.replicate 25 (exampleBuffer, exampleMsg), LookupSucceeds o) ∧
    (∃ s' fx, navSatCallback id id exampleSolve exampleBuffer exampleMsg (exampleStore 9)
        = some (s', fx) ∧
      s'.world_poses_.length = (exampleStore 9).world_poses_.length + 1 ∧
      (solves fx).length
        = if s'.world_poses_.length % 10 = 0 ∧ 0 < s'.world_poses_.length then 1 else 0) ∧
    (∃ s' fx,
      run id id exampleSolve (ingestions (List.replicate 25 (exampleBuffer, exampleMsg)))
        (GPSCalibration.ctor none none none none).state = some (s', fx) ∧
      s'.world_poses_.length = (List.replicate 25 (exampleBuffer, exampleMsg)).length ∧
      (solves fx).map (fun p => p.blocks.length)
        = (List.range ((List.replicate 25 (exampleBuffer, exampleMsg)).length / 10)).map
            (fun k => 10 * (k + 1))) :=
  have h1 : Paired (exampleStore 9) := by simp [Paired, exampleStore]
  have h2 : exampleBuffer "world" "navsat_link" exampleMsg.stamp
      = Except.ok ⟨0, "world", "navsat_link", ⟨⟨1, 2, 0⟩, ⟨1, 0, 0, 0⟩⟩⟩ := rfl
  have h3 : ∀ o ∈ List.replicate 25 (exampleBuffer, exampleMsg), LookupSucceeds o := by
    intro o ho
    rw [List.eq_of_mem_replicate ho]
    exact ⟨_, rfl⟩
  ⟨h1, h2, h3,
    C1_solve_at_every_tenth_ingestion id id exampleSolve (exampleStore 9) exampleBuffer
      exampleMsg _ (List.replicate 25 (exampleBuffer, exampleMsg)) none none none none h1 h2 h3⟩

/-- Claim C2: when the world-frame lookup fails, `navSatCallback` returns with the
state unchanged (georeferenced points, world points, estimate), runs no solve and
writes no table, whatever the current count; all it does is log warnings, the
last of them the text of the lookup exception. -/
theorem C2_failed_lookup_drops_observation [Field α] (cos sin : α → α) (Solve : Solver α)
    (tf_buffer : TfBuffer α) (msg : Odometry α) (s : GPSCalibration α) (what : String)
    (h : tf_buffer "world" "navsat_link" msg.stamp = Except.error what) :
    ∃ s' fx, navSatCallback cos sin Solve tf_buffer msg s = some (s', fx) ∧
      s'.gps_poses_ = s.gps_poses_ ∧ s'.world_poses_ = s.world_poses_ ∧
      s'.translation_ = s.translation_ ∧ s'.rotation_ = s.rotation_ ∧ s' = s ∧
      solves fx = [] ∧ tables fx = [] ∧ withoutWarnings fx = [] ∧
      (warnings fx).getLast? = some what := by
  refine ⟨s, _, navSatCallback_error cos sin Solve tf_buffer msg s what h,
    rfl, rfl, rfl, rfl, rfl, ?_, ?_, ?_, ?_⟩
  · rw [solves_append, solves_frameWarning]; rfl
  · unfold frameWarning; split <;> rfl
  · unfold frameWarning; split <;> rfl
  · unfold frameWarning; split <;> rfl

/-- Worked example for C2: the lookup fails for a store holding ten
correspondences. -/
theorem C2_failed_lookup_drops_observation_witness :
    exampleFailingBuffer "world" "navsat_link" exampleForeignMsg.stamp
      = Except.error "lookup timed out" ∧
    ∃ s' fx, navSatCallback id id exampleSolve exampleFailingBuffer exampleForeignMsg
        (exampleStore 10) = some (s', fx) ∧
      s'.gps_poses_ = (exampleStore 10).gps_poses_ ∧
      s'.world_poses_ = (exampleStore 10).world_poses_ ∧
      s'.translation_ = (exampleStore 10).translation_ ∧
      s'.rotation_ = (exampleStore 10).rotation_ ∧ s' = exampleStore 10 ∧
      solves fx = [] ∧ tables fx = [] ∧ withoutWarnings fx = [] ∧
      (warnings fx).getLast? = some "lookup timed out" :=
  ⟨rfl, C2_failed_lookup_drops_observation id id exampleSolve exampleFailingBuffer
    exampleForeignMsg (exampleStore 10) "lookup timed out" rfl⟩

/-- Claim C3: for a real rotation angle, `publishTF` broadcasts exactly one
transform, from `utm` to `world`, with translation `(t.x, t.y, 0)` and rotation
quaternion `(w, x, y, z) = (cos(θ/2), 0, 0, sin(θ/2))`, so that `x = y = 0` and
`w² + z² = 1`; the state (estimate and store) is returned unchanged. -/
theorem C3_publishTF_shape (now : Nat) (s : GPSCalibration ℝ) :
    ∃ tf, publishTF Real.cos Real.sin now s = (s, [Effect.sendTransform tf]) ∧
      tf.frame_id = "utm" ∧ tf.child_frame_id = "world" ∧
      tf.transform.translation = ⟨s.translation_.x, s.translation_.y, 0⟩ ∧
      tf.transform.rotation
        = ⟨Real.cos (s.rotation_ / 2), 0, 0, Real.sin (s.rotation_ / 2)⟩ ∧
      tf.transform.rotation.x = 0 ∧ tf.transform.rotation.y = 0 ∧
      tf.transform.rotation.w ^ 2 + tf.transform.rotation.z ^ 2 = 1 := by
  refine ⟨_, rfl, rfl, rfl, rfl, rfl, rfl, rfl, ?_⟩
  exact Real.cos_sq_add_sin_sq (s.rotation_ / 2)

/-- Claim C5, as the code has it: the constructor binds the subscription to
`gps/run_optimization` to `navSatCallback`, so a request delivered on it to the
freshly constructed node runs no solve, whatever the message and the tf buffer
hold, whereas `optimizeCallback` on the same state runs one solve over the store. -/
theorem C5_run_optimization_is_bound_to_navSatCallback [Field α] (cos sin : α → α)
    (Solve : Solver α) (tf_buffer : TfBuffer α) (msg : Odometry α) (now : Nat)
    (translation_x translation_y orientation : Option α) (write_debug_file : Option Bool) :
    (GPSCalibration.ctor translation_x translation_y orientation
        write_debug_file).optimize_sub_
      = ⟨"gps/run_optimization", 10, Callback.navSatCallback⟩ ∧
    (∃ s' fx,
      (GPSCalibration.ctor translation_x translation_y orientation
          write_debug_file).optimize_sub_.deliver cos sin Solve tf_buffer msg now
        (GPSCalibration.ctor translation_x translation_y orientation write_debug_file).state
        = some (s', fx) ∧ solves fx = []) ∧
    (∃ s' fx,
      optimizeCallback cos sin Solve
        (GPSCalibration.ctor translation_x translation_y orientation write_debug_file).state
        = some (s', fx) ∧ (solves fx).length = 1) := by
  refine ⟨rfl, ?_, ?_⟩
  · cases hl : tf_buffer "world" "navsat_link" msg.stamp with
    | error what =>
      refine ⟨_, _, navSatCallback_error cos sin Solve tf_buffer msg _ what hl, ?_⟩
      rw [solves_append, solves_frameWarning]; rfl
    | ok tf =>
      have hstep := navSatCallback_ok cos sin Solve tf_buffer msg
        (GPSCalibration.ctor translation_x translation_y orientation write_debug_file).state
        tf hl rfl
      rw [if_neg (by simp [GPSCalibration.ctor])] at hstep
      exact ⟨_, _, hstep, solves_frameWarning msg⟩
  · refine ⟨_, _, optimize_of_paired cos sin Solve _ rfl, ?_⟩
    rw [solves_optimizeLog]; rfl

/-- Claim C7: on a paired store a `navSatCallback` whose lookup succeeds, whatever
the frame id of the message, puts the new world point and the new georeferenced
point last and leaves the earlier ones as they were, so the count grows by exactly
one; and any sequence of calls of `navSatCallback`, `optimizeCallback`, `optimize`
and `publishTF` returns with both lists extended at the end only, by equally many
entries: no count decreases and no stored pair changes. -/
theorem C7_store_is_append_only [Field α] (cos sin : α → α) (Solve : Solver α)
    (s : GPSCalibration α) (tf_buffer : TfBuffer α) (msg : Odometry α)
    (tf : TransformStamped α) (ops : List (Op α)) (hs : Paired s)
    (hok : tf_buffer "world" "navsat_link" msg.stamp = Except.ok tf) :
    (∃ s' fx, navSatCallback cos sin Solve tf_buffer msg s = some (s', fx) ∧
      s'.world_poses_
        = s.world_poses_ ++ [⟨tf.transform.translation.x, tf.transform.translation.y⟩] ∧
      s'.gps_poses_ = s.gps_poses_ ++ [⟨msg.position.x, msg.position.y⟩] ∧
      s'.world_poses_.length = s.world_poses_.length + 1 ∧
      s'.gps_poses_.length = s.gps_poses_.length + 1) ∧
    (∃ s' fx, run cos sin Solve ops s = some (s', fx) ∧
      s.world_poses_.length ≤ s'.world_poses_.length ∧
      s.gps_poses_.length ≤ s'.gps_poses_.length ∧
      ∃ new_world new_gps, s'.world_poses_ = s.world_poses_ ++ new_world ∧
        s'.gps_poses_ = s.gps_poses_ ++ new_gps ∧ new_world.length = new_gps.length) := by
  constructor
  · have hstep := navSatCallback_ok cos sin Solve tf_buffer msg s tf hok hs
    by_cases hc : (s.world_poses_.length + 1) % 10 = 0
    · rw [if_pos hc] at hstep
      exact ⟨_, _, hstep, rfl, rfl, by simp [withEstimate, appended],
        by simp [withEstimate, appended]⟩
    · rw [if_neg hc] at hstep
      exact ⟨_, _, hstep, rfl, rfl, by simp [appended], by simp [appended]⟩
  · obtain ⟨s', fx, hrun, _, _, nw, ng, hw, hg, hl⟩ := run_spec cos sin Solve ops s hs
    exact ⟨s', fx, hrun, by simp [hw], by simp [hg], nw, ng, hw, hg, hl⟩

/-- Worked example for C7: a message with frame id `base_link` is ingested into a
store of nine correspondences, and a mixed sequence of calls runs on it. -/
theorem C7_store_is_append_only_witness :
    Paired (exampleStore 9) ∧
    exampleBuffer "world" "navsat_link" exampleForeignMsg.stamp
      = Except.ok ⟨7, "world", "navsat_link", ⟨⟨1, 2, 0⟩, ⟨1, 0, 0, 0⟩⟩⟩ ∧
    (∃ s' fx, navSatCallback id id exampleSolve exampleBuffer exampleForeignMsg
        (exampleStore 9) = some (s', fx) ∧
      s'.world_poses_ = (exampleStore 9).world_poses_ ++ [⟨1, 2⟩] ∧
      s'.gps_poses_ = (exampleStore 9).gps_poses_ ++ [⟨3, 4⟩] ∧
      s'.world_poses_.length = (exampleStore 9).world_poses_.length + 1 ∧
      s'.gps_poses_.length = (exampleStore 9).gps_poses_.length + 1) ∧
    (∃ s' fx, run id id exampleSolve
        [Op.publishTF 0, Op.navSatCallback exampleFailingBuffer exampleMsg, Op.optimize,
          Op.navSatCallback exampleBuffer exampleMsg, Op.optimizeCallback]
        (exampleStore 9) = some (s', fx) ∧
      (exampleStore 9).world_poses_.length ≤ s'.world_poses_.length ∧
      (exampleStore 9).gps_poses_.length ≤ s'.gps_poses_.length ∧
      ∃ new_world new_gps, s'.world_poses_ = (exampleStore 9).world_poses_ ++ new_world ∧
        s'.gps_poses_ = (exampleStore 9).gps_poses_ ++ new_gps ∧
        new_world.length = new_gps.length) :=
  have h1 : Paired (exampleStore 9) := by simp [Paired, exampleStore]
  have h2 : exampleBuffer "world" "navsat_link" exampleForeignMsg.stamp
      = Except.ok ⟨7, "world", "navsat_link", ⟨⟨1, 2, 0⟩, ⟨1, 0, 0, 0⟩⟩⟩ := rfl
  ⟨h1, h2, C7_store_is_append_only id id exampleSolve (exampleStore 9) exampleBuffer
    exampleForeignMsg _ _ h1 h2⟩

/-- Claim C8: on a paired store `optimize` returns with the estimate equal to the
parameter values the solver produced, whatever the termination type; the run
differs from the run of a solver that produced the same values and reported
`CONVERGENCE` only by the warning line carrying the solver report. -/
theorem C8_no_rollback_on_non_convergence [Field α] (cos sin : α → α) (Solve : Solver α)
    (s : GPSCalibration α) (hs : Paired s) :
    ∃ s' fx, optimize cos sin Solve s = some (s', fx) ∧
      s'.translation_ = (Solve ⟨LinearSolverType.DENSE_QR⟩ (problemOf s)).translation ∧
      s'.rotation_ = (Solve ⟨LinearSolverType.DENSE_QR⟩ (problemOf s)).rotation ∧
      warnings fx
        = (if (Solve ⟨LinearSolverType.DENSE_QR⟩ (problemOf s)).termination_type
              = TerminationType.CONVERGENCE
           then [] else [(Solve ⟨LinearSolverType.DENSE_QR⟩ (problemOf s)).FullReport]) ∧
      optimize cos sin
          (fun options problem =>
            { Solve options problem with termination_type := TerminationType.CONVERGENCE }) s
        = some (s', withoutWarnings fx) := by
  refine ⟨_, _, optimize_of_paired cos sin Solve s hs, rfl, rfl,
    warnings_optimizeLog cos sin s _, ?_⟩
  rw [optimize_of_paired cos sin _ s hs, withoutWarnings_optimizeLog]
  rfl

/-- Claim C9: on a paired store of N correspondences `optimize` hands the solver
one problem; it has exactly N residual blocks, the i-th made of the i-th stored
world point and the i-th stored georeferenced point, and its two parameter blocks
start at the translation and rotation held before the call. -/
theorem C9_full_batch_from_current_estimate [Field α] (cos sin : α → α) (Solve : Solver α)
    (s : GPSCalibration α) (hs : Paired s) :
    ∃ s' fx problem, optimize cos sin Solve s = some (s', fx) ∧
      solves fx = [problem] ∧
      problem.blocks.length = s.world_poses_.length ∧
      (∀ (i : Nat) (w g : Vec2 α), s.world_poses_[i]? = some w → s.gps_poses_[i]? = some g →
        problem.blocks[i]? = some ⟨w, g⟩) ∧
      problem.translation = s.translation_ ∧ problem.rotation = s.rotation_ := by
  refine ⟨_, _, problemOf s, optimize_of_paired cos sin Solve s hs,
    solves_optimizeLog cos sin s _, length_pairedBlocks s hs, ?_, rfl, rfl⟩
  intro i w g hw hg
  simp [problemOf, pairedBlocks, List.getElem?_zipWith, hw, hg]

/-- Claim C10: whatever sequence of `navSatCallback` (lookup succeeding or
failing), `optimizeCallback`, `optimize` and `publishTF` calls runs on the freshly
constructed node, the run returns and leaves as many georeferenced points as world
points; so every index the two loops of `optimize` use is in bounds for both
lists and `optimize` returns; and a further `navSatCallback` returns and, if it
ran a solve, the store then holds at least 10 correspondences, all of them in the
problem. -/
theorem C10_lists_stay_paired [Field α] (cos sin : α → α) (Solve : Solver α)
    (translation_x translation_y orientation : Option α) (write_debug_file : Option Bool)
    (ops : List (Op α)) (tf_buffer : TfBuffer α) (msg : Odometry α) :
    ∃ s fx,
      run cos sin Solve ops
        (GPSCalibration.ctor translation_x translation_y orientation write_debug_file).state
        = some (s, fx) ∧
      s.gps_poses_.length = s.world_poses_.length ∧
      (∀ i, i < s.world_poses_.length →
        (s.world_poses_[i]?).isSome ∧ (s.gps_poses_[i]?).isSome) ∧
      (∀ i, i < s.gps_poses_.length →
        (s.world_poses_[i]?).isSome ∧ (s.gps_poses_[i]?).isSome) ∧
      (optimize cos sin Solve s).isSome ∧
      ∃ s' fx', navSatCallback cos sin Solve tf_buffer msg s = some (s', fx') ∧
        (∀ p ∈ solves fx', 10 ≤ p.blocks.length ∧ 10 ≤ s'.world_poses_.length ∧
          10 ≤ s'.gps_poses_.length) := by
  obtain ⟨s, fx, hrun, hp, _, _⟩ := run_spec cos sin Solve ops
    (GPSCalibration.ctor translation_x translation_y orientation write_debug_file).state rfl
  have hp' : s.gps_poses_.length = s.world_poses_.length := hp
  refine ⟨s, fx, hrun, hp, ?_, ?_, ?_, ?_⟩
  · intro i hi
    have hg : i < s.gps_poses_.length := by omega
    simp [List.getElem?_eq_getElem, hi, hg]
  · intro i hg
    have hi : i < s.world_poses_.length := by omega
    simp [List.getElem?_eq_getElem, hi, hg]
  · rw [optimize_of_paired cos sin Solve s hp]; rfl
  · cases hl : tf_buffer "world" "navsat_link" msg.stamp with
    | error what =>
      refine ⟨_, _, navSatCallback_error cos sin Solve tf_buffer msg s what hl, ?_⟩
      intro p hmem
      rw [solves_append, solves_frameWarning] at hmem
      simp [solves] at hmem
    | ok tf =>
      have hstep := navSatCallback_ok cos sin Solve tf_buffer msg s tf hl hp
      have hpa := paired_appended s msg tf hp
      have hla : (appended s msg tf).world_poses_.length = s.world_poses_.length + 1 := by
        simp [appended]
      have hga : (appended s msg tf).gps_poses_.length = s.world_poses_.length + 1 := by
        rw [hpa, hla]
      by_cases hc : (s.world_poses_.length + 1) % 10 = 0
      · rw [if_pos hc] at hstep
        refine ⟨_, _, hstep, ?_⟩
        intro p hmem
        rw [solves_append, solves_frameWarning, solves_optimizeLog] at hmem
        simp only [List.nil_append, List.mem_singleton] at hmem
        subst hmem
        have hb : (problemOf (appended s msg tf)).blocks.length
            = s.world_poses_.length + 1 := by
          simp only [problemOf, length_pairedBlocks _ hpa, hla]
        refine ⟨?_, ?_, ?_⟩
        · rw [hb]; omega
        · simp only [withEstimate, hla]; omega
        · simp only [withEstimate, hga]; omega
      · rw [if_neg hc] at hstep
        refine ⟨_, _, hstep, ?_⟩
        intro p hmem
        rw [solves_frameWarning] at hmem
        simp at hmem

/-- Worked example for C8: a solver that moves the parameters and reports
`NO_CONVERGENCE` runs on the concrete scenario. -/
theorem C8_no_rollback_on_non_convergence_witness :
    Paired (scenario true : GPSCalibration ℚ) ∧
    ∃ s' fx, optimize id id exampleStalledSolve (scenario true : GPSCalibration ℚ)
        = some (s', fx) ∧
      s'.translation_
        = (exampleStalledSolve ⟨LinearSolverType.DENSE_QR⟩
            (problemOf (scenario true : GPSCalibration ℚ))).translation ∧
      s'.rotation_
        = (exampleStalledSolve ⟨LinearSolverType.DENSE_QR⟩
            (problemOf (scenario true : GPSCalibration ℚ))).rotation ∧
      warnings fx
        = (if (exampleStalledSolve ⟨LinearSolverType.DENSE_QR⟩
                (problemOf (scenario true : GPSCalibration ℚ))).termination_type
              = TerminationType.CONVERGENCE
           then []
           else [(exampleStalledSolve ⟨LinearSolverType.DENSE_QR⟩
                (problemOf (scenario true : GPSCalibration ℚ))).FullReport]) ∧
      optimize id id
          (fun options problem =>
            { exampleStalledSolve options problem with
              termination_type := TerminationType.CONVERGENCE })
          (scenario true : GPSCalibration ℚ)
        = some (s', withoutWarnings fx) :=
  ⟨rfl, C8_no_rollback_on_non_convergence id id exampleStalledSolve (scenario true) rfl⟩

/-- Worked example for C9: the problem built for the concrete scenario. -/
theorem C9_full_batch_from_current_estimate_witness :
    Paired (scenario false : GPSCalibration ℚ) ∧
    ∃ s' fx problem, optimize id id exampleSolve (scenario false : GPSCalibration ℚ)
        = some (s', fx) ∧
      solves fx = [problem] ∧
      problem.blocks.length = (scenario false : GPSCalibration ℚ).world_poses_.length ∧
      (∀ (i : Nat) (w g : Vec2 ℚ), (scenario false : GPSCalibration ℚ).world_poses_[i]? = some w →
        (scenario false : GPSCalibration ℚ).gps_poses_[i]? = some g →
        problem.blocks[i]? = some ⟨w, g⟩) ∧
      problem.translation = (scenario false : GPSCalibration ℚ).translation_ ∧
      problem.rotation = (scenario false : GPSCalibration ℚ).rotation_ :=
  ⟨rfl, C9_full_batch_from_current_estimate id id exampleSolve (scenario false) rfl⟩

/-- Claim C6: over the real numbers and on a paired store of N correspondences,
`optimize` writes no table when the debug flag is off, and when it is on writes one
table, `gps_alignment_solution.csv`, with the header row and exactly N data rows;
the i-th row is `(g_i.x, g_i.y, p_i.x, p_i.y)` where `p_i` is the i-th world point
`(w_i.x, w_i.y, 0)` moved by the quaternion `(cos(θ/2), 0, 0, sin(θ/2))` and the
translation `(t.x, t.y, 0)` of the estimate held after the solve, which is the
point `(cos θ·w_i.x − sin θ·w_i.y + t.x, sin θ·w_i.x + cos θ·w_i.y + t.y, 0)`. -/
theorem C6_debug_table_rows (Solve : Solver ℝ) (s : GPSCalibration ℝ) (hs : Paired s) :
    ∃ s' fx rows, optimize Real.cos Real.sin Solve s = some (s', fx) ∧
      tables fx
        = (if s.write_debug_file_
           then [("gps_alignment_solution.csv",
             ⟨["gps_x", "gps_y", "world_x", "world_y"], rows⟩)]
           else []) ∧
      rows.length = s.world_poses_.length ∧
      ∀ (i : Nat) (w g : Vec2 ℝ), s.world_poses_[i]? = some w → s.gps_poses_[i]? = some g →
        rows[i]?
          = some [g.x, g.y,
              Real.cos s'.rotation_ * w.x - Real.sin s'.rotation_ * w.y + s'.translation_.x,
              Real.sin s'.rotation_ * w.x + Real.cos s'.rotation_ * w.y + s'.translation_.y] ∧
        Rigid3.apply
            ⟨⟨s'.translation_.x, s'.translation_.y, 0⟩,
             ⟨Real.cos (s'.rotation_ / 2), 0, 0, Real.sin (s'.rotation_ / 2)⟩⟩
            ⟨w.x, w.y, 0⟩
          = ⟨Real.cos s'.rotation_ * w.x - Real.sin s'.rotation_ * w.y + s'.translation_.x,
             Real.sin s'.rotation_ * w.x + Real.cos s'.rotation_ * w.y + s'.translation_.y,
             0⟩ := by
  refine ⟨_, _, _, optimize_of_paired Real.cos Real.sin Solve s hs,
    tables_optimizeLog Real.cos Real.sin s _, ?_, ?_⟩
  · simp only [debugRows, List.length_zipWith, Paired] at *
    omega
  · intro i w g hw hg
    refine ⟨?_, estimateTransform_apply _ _ _⟩
    simp only [debugRows, estimateTransform, estimateTransform_apply]
    simp [List.getElem?_zipWith, hw, hg, withEstimate]

/-- Worked example for C6: the table written for the concrete scenario. -/
theorem C6_debug_table_rows_witness :
    Paired (scenario true : GPSCalibration ℝ) ∧
    ∃ s' fx rows, optimize Real.cos Real.sin scenarioSolve (scenario true : GPSCalibration ℝ)
        = some (s', fx) ∧
      tables fx
        = (if (scenario true : GPSCalibration ℝ).write_debug_file_
           then [("gps_alignment_solution.csv",
             ⟨["gps_x", "gps_y", "world_x", "world_y"], rows⟩)]
           else []) ∧
      rows.length = (scenario true : GPSCalibration ℝ).world_poses_.length ∧
      ∀ (i : Nat) (w g : Vec2 ℝ), (scenario true : GPSCalibration ℝ).world_poses_[i]? = some w →
        (scenario true : GPSCalibration ℝ).gps_poses_[i]? = some g →
        rows[i]?
          = some [g.x, g.y,
              Real.cos s'.rotation_ * w.x - Real.sin s'.rotation_ * w.y + s'.translation_.x,
              Real.sin s'.rotation_ * w.x + Real.cos s'.rotation_ * w.y + s'.translation_.y] ∧
        Rigid3.apply
            ⟨⟨s'.translation_.x, s'.translation_.y, 0⟩,
             ⟨Real.cos (s'.rotation_ / 2), 0, 0, Real.sin (s'.rotation_ / 2)⟩⟩
            ⟨w.x, w.y, 0⟩
          = ⟨Real.cos s'.rotation_ * w.x - Real.sin s'.rotation_ * w.y + s'.translation_.x,
             Real.sin s'.rotation_ * w.x + Real.cos s'.rotation_ * w.y + s'.translation_.y,
             0⟩ :=
  ⟨rfl, C6_debug_table_rows scenarioSolve (scenario true) rfl⟩

end Claims

end HectorGps
